import Mathlib

/-!
Verification of the solar-app efficiency simulation engine.

The numerical model is embedded over ℚ: every JavaScript arithmetic
operation of the source (addition, multiplication, division by powers of
ten, Math.max, Math.min, Math.round) is mirrored exactly on rationals.
Math.round(x) is floor (x + 1/2), which matches the JavaScript semantics
on the values involved.
-/

namespace SolarApp

/-- The parameter vector handed to the estimator.  The field names follow
src/src/App.jsx (FEATURES_CONFIG and ADDITIONAL_FEATURES); the source's
soiling_ratio field is called soiling here. -/
structure Inputs where
  irradiance : ℚ
  soiling : ℚ
  panel_age : ℚ
  temperature : ℚ
  humidity : ℚ
  cloud_coverage : ℚ
  module_temperature : ℚ
  wind_speed : ℚ
  voltage : ℚ
  current : ℚ
  pressure : ℚ
  maintenance_count : ℚ
deriving DecidableEq, Repr, Inhabited

/-- The result object returned by the local predictor in
src/src/services/api.js. -/
structure EfficiencyResult where
  efficiency : ℚ
  efficiency_percent : ℚ
  quality_label : String
  confidence : String
deriving DecidableEq, Repr, Inhabited

/-- getQualityLabel from src/src/services/api.js. -/
def getQualityLabel (efficiency : ℚ) : String :=
  if efficiency < 3/10 then "Faible"
  else if efficiency < 1/2 then "Modérée"
  else if efficiency < 7/10 then "Bonne"
  else "Excellente"

namespace simulateLocally

/-- simulateLocally.predict from src/src/services/api.js, the local
fallback estimator. -/
def predict (inputs : Inputs) : EfficiencyResult :=
  let e1 : ℚ := 3/10 + (inputs.irradiance / 1000) * (35/100)
  let e2 := e1 + inputs.soiling * (15/100)
  let e3 := e2 - (inputs.panel_age / 35) * (8/100)
  let e4 := if 25 < inputs.temperature
            then e3 - ((inputs.temperature - 25) / 100) * (3/100)
            else e3
  let e5 := e4 - (inputs.humidity / 100) * (2/100)
  let e6 := e5 - (inputs.cloud_coverage / 100) * (2/100)
  let efficiency := max (1/10) (min (85/100) e6)
  { efficiency := efficiency
    efficiency_percent := efficiency * 100
    quality_label := getQualityLabel efficiency
    confidence := "simulated" }

end simulateLocally

/-- Math.round on rationals: round half towards positive infinity. -/
def jsRound (x : ℚ) : ℤ := ⌊x + 1/2⌋

/-- Math.round (x * 10) / 10: round to one decimal place. -/
def round1 (x : ℚ) : ℚ := (jsRound (x * 10) : ℚ) / 10

/-- Math.round (x * 1000) / 10: the percent value rounded to one decimal
as computed in generateMaintenanceComparison. -/
def round3to1 (x : ℚ) : ℚ := (jsRound (x * 1000) : ℚ) / 10

/-- The example base vector used by the spec (all remaining fields at the
slider defaults of FEATURES_CONFIG / ADDITIONAL_FEATURES). -/
def exampleVec : Inputs :=
  { irradiance := 500
    soiling := 7/10
    panel_age := 10
    temperature := 25
    humidity := 50
    cloud_coverage := 30
    module_temperature := 35
    wind_speed := 7
    voltage := 30
    current := 2
    pressure := 1013
    maintenance_count := 3 }

/-- The clamped efficiency of the local predictor, written with the spec's
max (0, temperature - 25) term in place of the source's conditional
subtraction; the two agree on all inputs. -/
lemma predict_efficiency_unfold (p : Inputs) :
    (simulateLocally.predict p).efficiency =
      max (1/10) (min (85/100)
        (3/10 + (p.irradiance / 1000) * (35/100) + p.soiling * (15/100)
          - (p.panel_age / 35) * (8/100)
          - (max 0 (p.temperature - 25) / 100) * (3/100)
          - (p.humidity / 100) * (2/100)
          - (p.cloud_coverage / 100) * (2/100))) := by
  simp only [simulateLocally.predict]
  rcases lt_or_le 25 p.temperature with h | h
  · rw [if_pos h, max_eq_right (by linarith : (0:ℚ) ≤ p.temperature - 25)]
  · rw [if_neg (not_lt.mpr h), max_eq_left (by linarith : p.temperature - 25 ≤ 0)]
    ring_nf

lemma clamp_mono {a b : ℚ} (h : a ≤ b) :
    max (1/10) (min (85/100) a) ≤ max (1/10) (min (85/100) b) :=
  max_le_max le_rfl (min_le_min le_rfl h)

/-- The predictor on the spec's example vector, evaluated exactly. -/
lemma exampleVec_efficiency :
    (simulateLocally.predict exampleVec).efficiency = 947/1750 := by
  rw [predict_efficiency_unfold]; norm_num [exampleVec, min_def, max_def]

/-- The quality label is computed from the clamped efficiency. -/
lemma predict_quality_label_eq (p : Inputs) :
    (simulateLocally.predict p).quality_label
      = getQualityLabel (simulateLocally.predict p).efficiency := rfl

/-- Claim C1, counterexample to the claim as stated: on the spec's example
vector the predictor returns efficiency 947/1750 = 0.541142857..., which is
not the claimed 0.5411. -/
theorem predict_example_not_claimed_decimal :
    (simulateLocally.predict exampleVec).efficiency ≠ 5411/10000 ∧
    (simulateLocally.predict exampleVec).efficiency = 947/1750 := by
  refine ⟨?_, exampleVec_efficiency⟩
  rw [exampleVec_efficiency]; norm_num

/-- Claim C1 (amended): for every parameter vector, the predictor returns
efficiency equal to the clamped linear formula, the quality label is the
threshold chain (Faible = Low, Modérée = Moderate, Bonne = Good,
Excellente = Excellent), and confidence is simulated; on the spec's example
vector the efficiency is 947/1750 (approximately 0.54114, displayed as
54.1 percent after rounding to one decimal), with label Bonne (Good). -/
theorem predict_formula_labels_example (p : Inputs) :
    (simulateLocally.predict p).efficiency =
      max (1/10) (min (85/100)
        (3/10 + (p.irradiance / 1000) * (35/100) + p.soiling * (15/100)
          - (p.panel_age / 35) * (8/100)
          - (max 0 (p.temperature - 25) / 100) * (3/100)
          - (p.humidity / 100) * (2/100)
          - (p.cloud_coverage / 100) * (2/100)))
    ∧ (simulateLocally.predict p).quality_label =
        (if (simulateLocally.predict p).efficiency < 3/10 then "Faible"
         else if (simulateLocally.predict p).efficiency < 1/2 then "Modérée"
         else if (simulateLocally.predict p).efficiency < 7/10 then "Bonne"
         else "Excellente")
    ∧ (simulateLocally.predict p).confidence = "simulated"
    ∧ (simulateLocally.predict exampleVec).efficiency = 947/1750
    ∧ round1 ((simulateLocally.predict exampleVec).efficiency * 100) = 541/10
    ∧ (simulateLocally.predict exampleVec).quality_label = "Bonne" := by
  refine ⟨predict_efficiency_unfold p, rfl, rfl, exampleVec_efficiency, ?_, ?_⟩
  · rw [exampleVec_efficiency]; norm_num [round1, jsRound]
  · rw [predict_quality_label_eq, exampleVec_efficiency]; norm_num [getQualityLabel]

/-- Claim C2: the efficiency returned by the local estimator always lies in
the closed interval from 0.10 to 0.85. -/
theorem predict_efficiency_bounds (p : Inputs) :
    1/10 ≤ (simulateLocally.predict p).efficiency
    ∧ (simulateLocally.predict p).efficiency ≤ 85/100 := by
  rw [predict_efficiency_unfold]
  exact ⟨le_max_left _ _, max_le (by norm_num) (min_le_left _ _)⟩

/-- Claim C3: holding all other parameters fixed, increasing irradiance
never decreases efficiency, increasing panel age never increases it, and
increasing the soiling ratio never decreases it. -/
theorem predict_monotone (p : Inputs) (v w : ℚ) (h : v ≤ w) :
    (simulateLocally.predict { p with irradiance := v }).efficiency
      ≤ (simulateLocally.predict { p with irradiance := w }).efficiency
    ∧ (simulateLocally.predict { p with panel_age := w }).efficiency
      ≤ (simulateLocally.predict { p with panel_age := v }).efficiency
    ∧ (simulateLocally.predict { p with soiling := v }).efficiency
      ≤ (simulateLocally.predict { p with soiling := w }).efficiency := by
  refine ⟨?_, ?_, ?_⟩ <;>
  · rw [predict_efficiency_unfold, predict_efficiency_unfold]
    apply clamp_mono
    dsimp only
    linarith

/-- Witness for claim C3 at the example vector with values 1 and 2. -/
theorem predict_monotone_witness :
    ((1:ℚ) ≤ 2)
    ∧ (simulateLocally.predict { exampleVec with irradiance := 1 }).efficiency
        ≤ (simulateLocally.predict { exampleVec with irradiance := 2 }).efficiency
    ∧ (simulateLocally.predict { exampleVec with panel_age := 2 }).efficiency
        ≤ (simulateLocally.predict { exampleVec with panel_age := 1 }).efficiency
    ∧ (simulateLocally.predict { exampleVec with soiling := 1 }).efficiency
        ≤ (simulateLocally.predict { exampleVec with soiling := 2 }).efficiency :=
  ⟨by norm_num, (predict_monotone exampleVec 1 2 (by norm_num)).1,
    (predict_monotone exampleVec 1 2 (by norm_num)).2.1,
    (predict_monotone exampleVec 1 2 (by norm_num)).2.2⟩

/-- One entry of the data array built by generateYearlyEvolution in
src/src/App.jsx. -/
structure YearlyRecord where
  year : ℕ
  yearLabel : String
  efficiency : ℚ
  production : ℤ
  degradation : ℚ
  status : String
deriving DecidableEq, Repr, Inhabited

/-- The loop body of generateYearlyEvolution: the record pushed for a given
year.  refEff is the rounded efficiency stored in the year-0 record
(data[0].efficiency in the source); at year 0 the source uses the local
unrounded value instead. -/
def evolutionRecord (baseInputs : Inputs) (refEff : ℚ) (year : ℕ) : YearlyRecord :=
  let result := simulateLocally.predict { baseInputs with panel_age := (year : ℚ) }
  let efficiency := result.efficiency * 100
  let annualProduction := (400 * 1500 * result.efficiency) / 1000
  let initialEfficiency := if year = 0 then efficiency else refEff
  let degradation := ((initialEfficiency - efficiency) / initialEfficiency) * 100
  { year := year
    yearLabel := "Année " ++ toString year
    efficiency := round1 efficiency
    production := jsRound annualProduction
    degradation := round1 degradation
    status := if 60 ≤ efficiency then "Bon"
              else if 45 ≤ efficiency then "Acceptable"
              else "À remplacer" }

/-- generateYearlyEvolution from src/src/App.jsx (the source's default
argument is maxYears = 35). -/
def generateYearlyEvolution (baseInputs : Inputs) (maxYears : ℕ) : List YearlyRecord :=
  let refEff := round1
    ((simulateLocally.predict { baseInputs with panel_age := 0 }).efficiency * 100)
  (List.range (maxYears + 1)).map (evolutionRecord baseInputs refEff)

/-- Claim C4: the evolution sequence has exactly maxYears + 1 records, the
year fields are 0, 1, ..., maxYears in ascending order, and the year-0
record has degradation 0. -/
theorem generateYearlyEvolution_shape (base : Inputs) (maxYears : ℕ) :
    (generateYearlyEvolution base maxYears).length = maxYears + 1
    ∧ (generateYearlyEvolution base maxYears).map YearlyRecord.year
        = List.range (maxYears + 1)
    ∧ ((generateYearlyEvolution base maxYears).getD 0 default).degradation = 0 := by
  refine ⟨by simp [generateYearlyEvolution], ?_, ?_⟩
  · simp only [generateYearlyEvolution, List.map_map]
    have h : YearlyRecord.year ∘
        evolutionRecord base (round1
          ((simulateLocally.predict { base with panel_age := 0 }).efficiency * 100))
        = fun i => i := funext fun i => rfl
    rw [h, List.map_id']
  · simp only [generateYearlyEvolution, List.range_succ_eq_map, List.map_cons,
      List.getD_cons_zero]
    show round1 _ = 0
    norm_num [evolutionRecord, round1, jsRound]

/-- A base vector whose unrounded year-0 efficiency percent is 59.96: the
rounded efficiency field becomes 60.0 while the status is computed from the
unrounded value. -/
def boundaryVec : Inputs :=
  { irradiance := 556
    soiling := 7/10
    panel_age := 0
    temperature := 25
    humidity := 0
    cloud_coverage := 0
    module_temperature := 35
    wind_speed := 7
    voltage := 30
    current := 2
    pressure := 1013
    maintenance_count := 3 }

/-- Claim C8, counterexample to the claim as stated: the year-0 record for
boundaryVec has efficiency_percent field 60 (rounded from 59.96) yet status
Acceptable, not Bon (Good), because the source compares the unrounded
percentage against the thresholds. -/
theorem evolution_status_counterexample :
    60 ≤ ((generateYearlyEvolution boundaryVec 0).getD 0 default).efficiency
    ∧ ((generateYearlyEvolution boundaryVec 0).getD 0 default).status ≠ "Bon"
    ∧ ((generateYearlyEvolution boundaryVec 0).getD 0 default).status
        = "Acceptable" := by
  norm_num [generateYearlyEvolution, evolutionRecord, List.range_succ_eq_map,
    simulateLocally.predict, boundaryVec, min_def, max_def, round1, jsRound]
  decide

/-- Claim C8 (amended): in every record of generate_evolution, the status is
Bon (Good) exactly when the unrounded efficiency percentage (efficiency times
100 before rounding) is at least 60, Acceptable exactly when it is at least
45 and below 60, and À remplacer (Replace) otherwise; the rounded
efficiency_percent field can disagree with these thresholds at boundary
values. -/
theorem evolution_status_thresholds (base : Inputs) (maxYears : ℕ)
    (r : YearlyRecord) (hr : r ∈ generateYearlyEvolution base maxYears) :
    r.status =
      (if 60 ≤ (simulateLocally.predict
            { base with panel_age := (r.year : ℚ) }).efficiency * 100
       then "Bon"
       else if 45 ≤ (simulateLocally.predict
            { base with panel_age := (r.year : ℚ) }).efficiency * 100
       then "Acceptable"
       else "À remplacer") := by
  simp only [generateYearlyEvolution, List.mem_map, List.mem_range] at hr
  obtain ⟨y, hy, rfl⟩ := hr
  rfl

/-- Witness for claim C8 (amended) at the year-0 record of the example
vector. -/
theorem evolution_status_thresholds_witness :
    ((generateYearlyEvolution exampleVec 0).getD 0 default)
        ∈ generateYearlyEvolution exampleVec 0
    ∧ ((generateYearlyEvolution exampleVec 0).getD 0 default).status =
      (if 60 ≤ (simulateLocally.predict
            { exampleVec with panel_age :=
              ((((generateYearlyEvolution exampleVec 0).getD 0 default).year : ℕ) : ℚ) }).efficiency * 100
       then "Bon"
       else if 45 ≤ (simulateLocally.predict
            { exampleVec with panel_age :=
              ((((generateYearlyEvolution exampleVec 0).getD 0 default).year : ℕ) : ℚ) }).efficiency * 100
       then "Acceptable"
       else "À remplacer") := by
  have hmem : ((generateYearlyEvolution exampleVec 0).getD 0 default)
      ∈ generateYearlyEvolution exampleVec 0 := by
    simp [generateYearlyEvolution, List.range_succ_eq_map]
  exact ⟨hmem, evolution_status_thresholds exampleVec 0 _ hmem⟩

/-- A maintenance scenario row of generateMaintenanceComparison in
src/src/App.jsx: a name with its soiling decay and maintenance bonus per
year. -/
structure Policy where
  name : String
  soilingDecay : ℚ
  maintenanceBonus : ℚ
deriving DecidableEq, Repr, Inhabited

def sansEntretien : Policy :=
  { name := "Sans entretien", soilingDecay := 15/1000, maintenanceBonus := 0 }

def entretienMinimal : Policy :=
  { name := "Entretien minimal", soilingDecay := 8/1000, maintenanceBonus := 2/1000 }

def entretienRegulier : Policy :=
  { name := "Entretien régulier", soilingDecay := 3/1000, maintenanceBonus := 5/1000 }

def entretienOptimal : Policy :=
  { name := "Entretien optimal", soilingDecay := 0, maintenanceBonus := 8/1000 }

/-- The year-0 inputs generateMaintenanceComparison builds once and shares
between all scenarios. -/
def initialInputs (baseInputs : Inputs) : Inputs :=
  { baseInputs with panel_age := 0, soiling := 85/100, maintenance_count := 0 }

/-- Math.round (initialResult.efficiency * 1000) / 10, the shared year-0
reference percent. -/
def initialEfficiencyPct (baseInputs : Inputs) : ℚ :=
  round3to1 (simulateLocally.predict (initialInputs baseInputs)).efficiency

/-- The value generateMaintenanceComparison records for one scenario at one
sampled year. -/
def policyValue (baseInputs : Inputs) (p : Policy) (year : ℕ) : ℚ :=
  if year = 0 then initialEfficiencyPct baseInputs
  else
    let soilingAfterYears := max (4/10) (85/100 - p.soilingDecay * year)
    let inputs := { baseInputs with
                    panel_age := (year : ℚ)
                    soiling := soilingAfterYears
                    maintenance_count := ((min year 10 : ℕ) : ℚ) }
    let result := simulateLocally.predict inputs
    let efficiency := result.efficiency + p.maintenanceBonus * year
    round3to1 (min efficiency
      (simulateLocally.predict (initialInputs baseInputs)).efficiency)

/-- One sampled data point: the year and one value per named scenario. -/
structure MaintenancePoint where
  year : ℕ
  sans : ℚ
  minimal : ℚ
  regulier : ℚ
  optimal : ℚ
deriving DecidableEq, Repr, Inhabited

/-- generateMaintenanceComparison from src/src/App.jsx, sampled at years
0, 5, 10, 15, 20, 25, 30. -/
def generateMaintenanceComparison (baseInputs : Inputs) : List MaintenancePoint :=
  [0, 5, 10, 15, 20, 25, 30].map fun year =>
    { year := year
      sans := policyValue baseInputs sansEntretien year
      minimal := policyValue baseInputs entretienMinimal year
      regulier := policyValue baseInputs entretienRegulier year
      optimal := policyValue baseInputs entretienOptimal year }

lemma round3to1_mono {a b : ℚ} (h : a ≤ b) : round3to1 a ≤ round3to1 b := by
  have hf : jsRound (a * 1000) ≤ jsRound (b * 1000) :=
    Int.floor_le_floor (by linarith)
  have h2 : ((jsRound (a * 1000) : ℤ) : ℚ) ≤ ((jsRound (b * 1000) : ℤ) : ℚ) := by
    exact_mod_cast hf
  unfold round3to1
  linarith

lemma policyValue_le (baseInputs : Inputs) (p : Policy) (year : ℕ) :
    policyValue baseInputs p year ≤ initialEfficiencyPct baseInputs := by
  simp only [policyValue]
  split_ifs with h
  · exact le_rfl
  · exact round3to1_mono (min_le_right _ _)

lemma policyValue_mono (baseInputs : Inputs) (p q : Policy) (year : ℕ)
    (hd : q.soilingDecay ≤ p.soilingDecay)
    (hb : p.maintenanceBonus ≤ q.maintenanceBonus) :
    policyValue baseInputs p year ≤ policyValue baseInputs q year := by
  simp only [policyValue]
  split_ifs with h
  · exact le_rfl
  · apply round3to1_mono
    apply min_le_min _ le_rfl
    have hsoil : max (4/10) (85/100 - p.soilingDecay * (year : ℚ))
        ≤ max (4/10) (85/100 - q.soilingDecay * (year : ℚ)) :=
      max_le_max le_rfl
        (sub_le_sub_left (mul_le_mul_of_nonneg_right hd (Nat.cast_nonneg year)) _)
    have heff :
        (simulateLocally.predict { baseInputs with
          panel_age := (year : ℚ)
          soiling := max (4/10) (85/100 - p.soilingDecay * (year : ℚ))
          maintenance_count := ((min year 10 : ℕ) : ℚ) }).efficiency
        ≤ (simulateLocally.predict { baseInputs with
          panel_age := (year : ℚ)
          soiling := max (4/10) (85/100 - q.soilingDecay * (year : ℚ))
          maintenance_count := ((min year 10 : ℕ) : ℚ) }).efficiency := by
      rw [predict_efficiency_unfold, predict_efficiency_unfold]
      apply clamp_mono
      dsimp only
      nlinarith [hsoil]
    have hbon : p.maintenanceBonus * (year : ℚ) ≤ q.maintenanceBonus * (year : ℚ) :=
      mul_le_mul_of_nonneg_right hb (Nat.cast_nonneg year)
    exact add_le_add heff hbon

/-- Claim C5: at year 0, all four scenario values of the comparison equal
the shared reference percent computed from the base vector with panel age 0,
soiling ratio 0.85 and maintenance count 0. -/
theorem comparison_year0_equal (baseInputs : Inputs) :
    ((generateMaintenanceComparison baseInputs).getD 0 default).year = 0
    ∧ ((generateMaintenanceComparison baseInputs).getD 0 default).sans
        = round3to1 (simulateLocally.predict { baseInputs with
            panel_age := 0, soiling := 85/100, maintenance_count := 0 }).efficiency
    ∧ ((generateMaintenanceComparison baseInputs).getD 0 default).minimal
        = round3to1 (simulateLocally.predict { baseInputs with
            panel_age := 0, soiling := 85/100, maintenance_count := 0 }).efficiency
    ∧ ((generateMaintenanceComparison baseInputs).getD 0 default).regulier
        = round3to1 (simulateLocally.predict { baseInputs with
            panel_age := 0, soiling := 85/100, maintenance_count := 0 }).efficiency
    ∧ ((generateMaintenanceComparison baseInputs).getD 0 default).optimal
        = round3to1 (simulateLocally.predict { baseInputs with
            panel_age := 0, soiling := 85/100, maintenance_count := 0 }).efficiency :=
  ⟨rfl, rfl, rfl, rfl, rfl⟩

/-- Claim C6: no scenario value at any sampled year of the comparison
exceeds the year-0 reference percent for the same base vector. -/
theorem comparison_le_reference (baseInputs : Inputs) (pt : MaintenancePoint)
    (hpt : pt ∈ generateMaintenanceComparison baseInputs) :
    pt.sans ≤ initialEfficiencyPct baseInputs
    ∧ pt.minimal ≤ initialEfficiencyPct baseInputs
    ∧ pt.regulier ≤ initialEfficiencyPct baseInputs
    ∧ pt.optimal ≤ initialEfficiencyPct baseInputs := by
  simp only [generateMaintenanceComparison, List.mem_map] at hpt
  obtain ⟨y, hy, rfl⟩ := hpt
  exact ⟨policyValue_le baseInputs sansEntretien y,
    policyValue_le baseInputs entretienMinimal y,
    policyValue_le baseInputs entretienRegulier y,
    policyValue_le baseInputs entretienOptimal y⟩

/-- Witness for claim C6 at the second sampled point (year 5) of the example
vector. -/
theorem comparison_le_reference_witness :
    ((generateMaintenanceComparison exampleVec).getD 1 default)
        ∈ generateMaintenanceComparison exampleVec
    ∧ ((generateMaintenanceComparison exampleVec).getD 1 default).sans
        ≤ initialEfficiencyPct exampleVec
    ∧ ((generateMaintenanceComparison exampleVec).getD 1 default).minimal
        ≤ initialEfficiencyPct exampleVec
    ∧ ((generateMaintenanceComparison exampleVec).getD 1 default).regulier
        ≤ initialEfficiencyPct exampleVec
    ∧ ((generateMaintenanceComparison exampleVec).getD 1 default).optimal
        ≤ initialEfficiencyPct exampleVec := by
  have hmem : ((generateMaintenanceComparison exampleVec).getD 1 default)
      ∈ generateMaintenanceComparison exampleVec := by
    simp [generateMaintenanceComparison]
  exact ⟨hmem, comparison_le_reference exampleVec _ hmem⟩

/-- Claim C7: at the year-30 sampled point, the scenario percents are
ordered Optimal at least Regular, Regular at least Minimal, Minimal at least
No Maintenance. -/
theorem comparison_year30_ordering (baseInputs : Inputs) :
    ((generateMaintenanceComparison baseInputs).getD 6 default).year = 30
    ∧ ((generateMaintenanceComparison baseInputs).getD 6 default).sans
        ≤ ((generateMaintenanceComparison baseInputs).getD 6 default).minimal
    ∧ ((generateMaintenanceComparison baseInputs).getD 6 default).minimal
        ≤ ((generateMaintenanceComparison baseInputs).getD 6 default).regulier
    ∧ ((generateMaintenanceComparison baseInputs).getD 6 default).regulier
        ≤ ((generateMaintenanceComparison baseInputs).getD 6 default).optimal := by
  refine ⟨rfl, ?_, ?_, ?_⟩
  · exact policyValue_mono baseInputs sansEntretien entretienMinimal 30
      (by norm_num [sansEntretien, entretienMinimal])
      (by norm_num [sansEntretien, entretienMinimal])
  · exact policyValue_mono baseInputs entretienMinimal entretienRegulier 30
      (by norm_num [entretienMinimal, entretienRegulier])
      (by norm_num [entretienMinimal, entretienRegulier])
  · exact policyValue_mono baseInputs entretienRegulier entretienOptimal 30
      (by norm_num [entretienRegulier, entretienOptimal])
      (by norm_num [entretienRegulier, entretienOptimal])

/-- The state handlePredict leaves behind: the prediction shown to the user
and the non-fatal error message, if any. -/
structure PredictOutcome where
  prediction : EfficiencyResult
  error : Option String
deriving DecidableEq, Repr

/-- handlePredict from src/src/App.jsx: in connected mode the remote call
is awaited and its failure caught by falling back to the local predictor
with a warning; in any other mode (the health check failed or is pending)
the local predictor is used directly.  The remote call's outcome is passed
in explicitly as an Except value. -/
def handlePredict (apiStatus : String)
    (remote : Except String EfficiencyResult) (inputs : Inputs) : PredictOutcome :=
  if apiStatus = "connected" then
    match remote with
    | Except.ok r => { prediction := r, error := none }
    | Except.error msg =>
        { prediction := simulateLocally.predict inputs, error := some msg }
  else
    { prediction := simulateLocally.predict inputs, error := none }

/-- Claim C9: when the health check has failed, handlePredict returns the
local simulated prediction for every parameter vector: confidence is
simulated, the efficiency is in bounds, and no error state replaces the
estimate. -/
theorem handlePredict_local_mode (apiStatus : String)
    (remote : Except String EfficiencyResult) (inputs : Inputs)
    (h : apiStatus = "disconnected") :
    (handlePredict apiStatus remote inputs).prediction
        = simulateLocally.predict inputs
    ∧ (handlePredict apiStatus remote inputs).error = none
    ∧ (handlePredict apiStatus remote inputs).prediction.confidence = "simulated"
    ∧ 1/10 ≤ (handlePredict apiStatus remote inputs).prediction.efficiency
    ∧ (handlePredict apiStatus remote inputs).prediction.efficiency ≤ 85/100 := by
  subst h
  refine ⟨rfl, rfl, rfl, ?_, ?_⟩
  · show 1/10 ≤ (simulateLocally.predict inputs).efficiency
    rw [predict_efficiency_unfold]
    exact le_max_left _ _
  · show (simulateLocally.predict inputs).efficiency ≤ 85/100
    rw [predict_efficiency_unfold]
    exact max_le (by norm_num) (min_le_left _ _)

/-- Witness for claim C9 with a failed remote call and the example vector. -/
theorem handlePredict_local_mode_witness :
    ("disconnected" = "disconnected")
    ∧ (handlePredict "disconnected" (Except.error "timeout") exampleVec).prediction
        = simulateLocally.predict exampleVec
    ∧ (handlePredict "disconnected" (Except.error "timeout") exampleVec).error = none
    ∧ (handlePredict "disconnected"
        (Except.error "timeout") exampleVec).prediction.confidence = "simulated"
    ∧ 1/10 ≤ (handlePredict "disconnected"
        (Except.error "timeout") exampleVec).prediction.efficiency
    ∧ (handlePredict "disconnected"
        (Except.error "timeout") exampleVec).prediction.efficiency ≤ 85/100 :=
  ⟨rfl,
    (handlePredict_local_mode "disconnected" (Except.error "timeout") exampleVec rfl).1,
    (handlePredict_local_mode "disconnected" (Except.error "timeout") exampleVec rfl).2.1,
    (handlePredict_local_mode "disconnected" (Except.error "timeout") exampleVec rfl).2.2.1,
    (handlePredict_local_mode "disconnected" (Except.error "timeout") exampleVec rfl).2.2.2.1,
    (handlePredict_local_mode "disconnected" (Except.error "timeout") exampleVec rfl).2.2.2.2⟩

/-- Claim C10: the local predictor reads only irradiance, soiling ratio,
panel age, temperature, humidity and cloud coverage; two vectors agreeing on
those six fields give identical results whatever the other fields hold. -/
theorem predict_depends_only_on_six (p q : Inputs)
    (h1 : p.irradiance = q.irradiance) (h2 : p.soiling = q.soiling)
    (h3 : p.panel_age = q.panel_age) (h4 : p.temperature = q.temperature)
    (h5 : p.humidity = q.humidity) (h6 : p.cloud_coverage = q.cloud_coverage) :
    simulateLocally.predict p = simulateLocally.predict q := by
  simp only [simulateLocally.predict, h1, h2, h3, h4, h5, h6]

/-- Witness for claim C10: the example vector with all six unused fields
changed gives the same result. -/
theorem predict_depends_only_on_six_witness :
    (exampleVec.irradiance = ({ exampleVec with
        module_temperature := 0, wind_speed := 0, voltage := 99,
        current := 7, pressure := 900, maintenance_count := 9 } : Inputs).irradiance)
    ∧ simulateLocally.predict exampleVec
        = simulateLocally.predict { exampleVec with
            module_temperature := 0, wind_speed := 0, voltage := 99,
            current := 7, pressure := 900, maintenance_count := 9 } :=
  ⟨rfl, predict_depends_only_on_six _ _ rfl rfl rfl rfl rfl rfl⟩

end SolarApp

